import Mathlib

/-!
Verification of the Hirex matching engine (`src/hirex/engine.py`,
`src/hirex/models.py`) against its natural-language specification.

The Python code is shallowly embedded: scores are exact rationals (`ℚ`),
Python sets of normalized strings are `Finset String`, optional values are
`Option`, and the wall-clock year read by `datetime.now().year` inside
`MatchingEngine._compute_relevant_years` is passed explicitly as a
`currentYear : ℤ` parameter.
-/

namespace Hirex

/-- Modelled from the spec: the `RoleExperience` record is constructed and
consumed throughout the repository (engine, resume parser, tests) but its
class definition is absent from `models.py` as shipped; fields follow §3 of
the spec: title (text), duration_years (non-negative real), description
(optional text), start_year (optional integer calendar year), end_year
(optional integer, absent meaning ongoing). -/
structure RoleExperience where
  title : String
  duration_years : ℚ
  description : Option String
  start_year : Option ℤ
  end_year : Option ℤ
deriving DecidableEq

/-- `CandidateProfile` from `models.py`.  The fields `roles`,
`relevant_years`, `recent_relevant_years` and `seniority` are modelled from
the spec (§3): they are read by the engine and constructed by the resume
parser and the tests, but missing from the `models.py` file as shipped. -/
structure CandidateProfile where
  id : String
  full_name : String
  years_experience : ℕ
  skills : List String
  desired_salary : Option ℕ
  preferred_locations : List String
  open_to_remote : Bool
  industries : List String
  roles : List RoleExperience
  relevant_years : Option ℚ
  recent_relevant_years : Option ℚ
  seniority : Option String
deriving DecidableEq

/-- `JobPosting` from `models.py`. -/
structure JobPosting where
  id : String
  title : String
  company : Option String
  required_skills : List String
  nice_to_have_skills : List String
  minimum_years_experience : ℕ
  salary_min : Option ℕ
  salary_max : Option ℕ
  location : Option String
  remote_allowed : Bool
  industries : List String
deriving DecidableEq

/-- `MatchingWeights` from `models.py` (each field validated `ge=0`). -/
structure MatchingWeights where
  skills : ℚ
  experience : ℚ
  salary : ℚ
  location : ℚ
  industry : ℚ
deriving DecidableEq

/-- `MatchingWeights.total_weight` from `models.py`. -/
def MatchingWeights.total_weight (w : MatchingWeights) : ℚ :=
  w.skills + w.experience + w.salary + w.location + w.industry

/-- The construction-time invariants pydantic enforces on `MatchingWeights`:
every weight is `ge=0` and `_ensure_positive_total_weight` requires a
strictly positive total. -/
def MatchingWeights.Valid (w : MatchingWeights) : Prop :=
  0 ≤ w.skills ∧ 0 ≤ w.experience ∧ 0 ≤ w.salary ∧ 0 ≤ w.location ∧
    0 ≤ w.industry ∧ 0 < w.total_weight

/-- The default weight values from `models.py`. -/
def defaultWeights : MatchingWeights :=
  { skills := 45/100, experience := 20/100, salary := 15/100,
    location := 10/100, industry := 10/100 }

/-- `MatchBreakdown` from `models.py`. -/
structure MatchBreakdown where
  skills : ℚ
  experience : ℚ
  salary : ℚ
  location : ℚ
  industry : ℚ
deriving DecidableEq

/-- `MatchBreakdown.total` from `models.py`. -/
def MatchBreakdown.total (b : MatchBreakdown) (w : MatchingWeights) : ℚ :=
  (b.skills * w.skills + b.experience * w.experience + b.salary * w.salary +
    b.location * w.location + b.industry * w.industry) / w.total_weight

/-- `JobMatch` from `models.py`. -/
structure JobMatch where
  job : JobPosting
  score : ℚ
  breakdown : MatchBreakdown
deriving DecidableEq

/-- `CandidateMatches` from `models.py` (`matchList` renders the Python
field `matches`, which is a reserved word in Lean). -/
structure CandidateMatches where
  candidate : CandidateProfile
  matchList : List JobMatch
deriving DecidableEq

/-- `ScoredMatch` from `engine.py`. -/
structure ScoredMatch where
  job : JobPosting
  score : ℚ
  breakdown : MatchBreakdown
deriving DecidableEq

/-- `_normalized_set` from `engine.py`:
`{value.strip().lower() for value in values if value and value.strip()}`.
(`value.strip()` being non-empty already forces `value` to be non-empty.) -/
def normalizedSet (values : List String) : Finset String :=
  ((values.filter (fun v => v.trim != "")).map (fun v => v.trim.toLower)).toFinset

/-- `MatchingEngine._skill_score` from `engine.py`. -/
def skillScore (candidateSkills requiredSkills niceToHaveSkills : List String) : ℚ :=
  let candSet := normalizedSet candidateSkills
  let requiredSet := normalizedSet requiredSkills
  let optionalSet := normalizedSet niceToHaveSkills
  if candSet = ∅ ∧ requiredSet ≠ ∅ then 0
  else if requiredSet = ∅ then (if candSet ≠ ∅ then 1 else 1/2)
  else
    let baseScore : ℚ := ((candSet ∩ requiredSet).card : ℚ) / (requiredSet.card : ℚ)
    let optionalBonus : ℚ :=
      if optionalSet ≠ ∅ then
        ((candSet ∩ optionalSet).card : ℚ) / (optionalSet.card : ℚ) * (3/10)
      else 0
  min 1 (baseScore + optionalBonus)

/-- The surplus/deficit rules of `MatchingEngine._experience_score` from
`engine.py`, as a function of the already-chosen `blendedYears`
(`job_minimum_years` is a pydantic `ge=0` int, so `<= 0` means `= 0`). -/
def experienceScoreAux (jobMinimumYears : ℕ) (blendedYears : ℚ) : ℚ :=
  if jobMinimumYears = 0 then 1
  else if (jobMinimumYears : ℚ) ≤ blendedYears then
    let surplus := blendedYears - (jobMinimumYears : ℚ)
    let surplusRatio := surplus / ((max jobMinimumYears 1 : ℕ) : ℚ)
    min 1 (7/10 + min surplusRatio 1 * (3/10))
  else
    let deficit := (jobMinimumYears : ℚ) - blendedYears
    let penalty := deficit / ((jobMinimumYears : ℚ) + 1)
    max 0 (7/10 - penalty)

/-- `MatchingEngine._experience_score` from `engine.py`: blended years are
`0.75 * recent_relevant_years + 0.25 * relevant_years` when both are
supplied, else the raw `candidate_years`. -/
def experienceScore (candidateYears : ℕ) (jobMinimumYears : ℕ)
    (relevantYears recentRelevantYears : Option ℚ) : ℚ :=
  experienceScoreAux jobMinimumYears
    (match relevantYears, recentRelevantYears with
      | some rel, some recent => 3/4 * recent + 1/4 * rel
      | _, _ => (candidateYears : ℚ))

/-- `MatchingEngine._salary_score` from `engine.py`. -/
def salaryScore (desiredSalary salaryMin salaryMax : Option ℕ) : ℚ :=
  match desiredSalary with
  | none => 1
  | some desired =>
    match salaryMin, salaryMax with
    | none, none => 1
    | smin, smax =>
      let afterMax : ℚ :=
        match smax with
        | some mx =>
          if mx < desired then
            1 - min 1 (((desired - mx : ℕ) : ℚ) / ((max mx 1 : ℕ) : ℚ))
          else 1
        | none => 1
      let afterMin : ℚ :=
        match smin with
        | some mn =>
          if desired < mn then
            afterMax - min (2/5) (((mn - desired : ℕ) : ℚ) / ((max mn 1 : ℕ) : ℚ) * (2/5))
          else afterMax
        | none => afterMax
      max 0 afterMin

/-- `MatchingEngine._location_score` from `engine.py`.  Python's
`job_location.strip().lower() if job_location else None` maps `None` and the
empty string to `None`; a whitespace-only location strips to the empty
string, which Python then treats as falsy, hence the explicit truthiness
test below. -/
def locationScore (preferredLocations : List String) (openToRemote : Bool)
    (jobLocation : Option String) (jobRemote : Bool) : ℚ :=
  let preferred := normalizedSet preferredLocations
  let jobLoc : Option String :=
    match jobLocation with
    | some l => if l = "" then none else some l.trim.toLower
    | none => none
  let jobLocTruthy : Bool :=
    match jobLoc with
    | some s => s != ""
    | none => false
  if jobRemote && openToRemote then 1
  else if (match jobLoc with
           | some s => s != "" && decide (s ∈ preferred)
           | none => false) then 1
  else if preferred = ∅ then (if jobLocTruthy then 4/5 else 1)
  else (if jobLocTruthy then 1/5 else 2/5)

/-- `MatchingEngine._industry_score` from `engine.py`. -/
def industryScore (candidateIndustries jobIndustries : List String) : ℚ :=
  let candidateSet := normalizedSet candidateIndustries
  let jobSet := normalizedSet jobIndustries
  if candidateSet = ∅ ∧ jobSet = ∅ then 1/2
  else if candidateSet = ∅ then 3/5
  else if jobSet = ∅ then 7/10
  else ((candidateSet ∩ jobSet).card : ℚ) / (jobSet.card : ℚ)

/-- Whether `pat` occurs at the head of `l` (helper for Python's substring
containment operator `in`). -/
def leadMatch : List Char → List Char → Bool
  | [], _ => true
  | _ :: _, [] => false
  | a :: as, b :: bs => a == b && leadMatch as bs

/-- Whether `pat` occurs contiguously anywhere in `l`. -/
def hasSub (pat : List Char) : List Char → Bool
  | [] => leadMatch pat []
  | b :: bs => leadMatch pat (b :: bs) || hasSub pat bs

/-- Python's `pat in s` substring test on strings. -/
def strContains (s pat : String) : Bool :=
  hasSub pat.data s.data

/-- The keyword lists of the domain taxonomy in
`MatchingEngine._roles_in_similar_domain` (`engine.py`); the dict keys
(backend/frontend/data/devops/mobile) only label the lists. -/
def domainKeywordLists : List (List String) :=
  [["backend", "api", "server", "database", "microservice"],
   ["frontend", "ui", "react", "angular", "vue", "html", "css"],
   ["data", "analytics", "science", "analyst", "ml", "ai"],
   ["devops", "infrastructure", "cloud", "aws", "docker", "kubernetes"],
   ["mobile", "ios", "android", "app"]]

/-- `MatchingEngine._roles_in_similar_domain` from `engine.py`: the two
domain sets intersect exactly when some taxonomy entry has a keyword
occurring in the role text and a keyword occurring in the job text. -/
def rolesInSimilarDomain (role : RoleExperience) (job : JobPosting) : Bool :=
  let roleText := (role.title ++ " " ++ role.description.getD "").toLower
  let jobText := (job.title ++ " " ++ String.intercalate " " job.required_skills).toLower
  domainKeywordLists.any fun kws =>
    kws.any (fun k => strContains roleText k) && kws.any (fun k => strContains jobText k)

/-- The per-role relevance factor computed inside the loop of
`MatchingEngine._compute_relevant_years` (`engine.py`). -/
def roleRelevance (candidate : CandidateProfile) (job : JobPosting)
    (role : RoleExperience) : ℚ :=
  let jobTitleTokens := normalizedSet (job.title.split Char.isWhitespace)
  let jobSkills := normalizedSet job.required_skills
  let candidateSkills := normalizedSet candidate.skills
  let roleTitleTokens := normalizedSet (role.title.split Char.isWhitespace)
  let titleMatch : ℚ := if jobTitleTokens ∩ roleTitleTokens ≠ ∅ then 1 else 0
  let skillOverlap : ℚ :=
    if jobSkills ≠ ∅ then
      let baseOverlap : ℚ := ((candidateSkills ∩ jobSkills).card : ℚ) / (jobSkills.card : ℚ)
      let roleText := role.title.toLower ++
        (match role.description with
          | some d => " " ++ d.toLower
          | none => "")
      let roleSpecificSkills := jobSkills.filter (fun s => strContains roleText s = true)
      let roleSkillBonus : ℚ := (roleSpecificSkills.card : ℚ) / (jobSkills.card : ℚ)
      7/10 * baseOverlap + 3/10 * roleSkillBonus
    else 0
  let domainBoost : ℚ := if rolesInSimilarDomain role job then 1/5 else 0
  min 1 (max titleMatch skillOverlap + domainBoost)

/-- The end year the recency computation uses: Python's
`role.end_year or current_year`, whose `or` also replaces a (falsy) year 0. -/
def effectiveEndYear (role : RoleExperience) (currentYear : ℤ) : ℤ :=
  match role.end_year with
  | some e => if e = 0 then currentYear else e
  | none => currentYear

/-- The recent-years contribution of one role inside the loop of
`MatchingEngine._compute_relevant_years` (`engine.py`), with the wall-clock
year passed explicitly (`recent_cutoff_years = 5`). -/
def roleRecentContribution (role : RoleExperience) (relevance : ℚ)
    (currentYear : ℤ) : ℚ :=
  match role.start_year with
  | some startYear =>
    let recentStart := max startYear (currentYear - 5)
    let recentEnd := min (effectiveEndYear role currentYear) currentYear
    if recentStart ≤ recentEnd then ((recentEnd - recentStart : ℤ) : ℚ) * relevance
    else 0
  | none =>
    if role.duration_years ≤ 5 then role.duration_years * relevance else 0

/-- `MatchingEngine._compute_relevant_years` from `engine.py`.  Returns
`(relevant_years, recent_relevant_years)`; `currentYear` stands for the
`datetime.now().year` the Python code reads inside the loop. -/
def computeRelevantYears (candidate : CandidateProfile) (job : JobPosting)
    (currentYear : ℤ) : ℚ × ℚ :=
  if candidate.roles = [] then
    let years : ℚ := (candidate.years_experience : ℚ)
    (years, min years 5)
  else
    candidate.roles.foldl
      (fun acc role =>
        let relevance := roleRelevance candidate job role
        (acc.1 + role.duration_years * relevance,
         acc.2 + roleRecentContribution role relevance currentYear))
      (0, 0)

/-- Python's `round(x, 4)` on the aggregate score, over exact rationals. -/
def round4 (x : ℚ) : ℚ :=
  ((round (x * 10000) : ℤ) : ℚ) / 10000

/-- `MatchingEngine._score_candidate_for_job` from `engine.py`. -/
def scoreCandidateForJob (candidate : CandidateProfile) (job : JobPosting)
    (weights : MatchingWeights) (currentYear : ℤ) : ScoredMatch :=
  let ry := computeRelevantYears candidate job currentYear
  let breakdown : MatchBreakdown :=
    { skills := skillScore candidate.skills job.required_skills job.nice_to_have_skills
      experience := experienceScore candidate.years_experience
        job.minimum_years_experience (some ry.1) (some ry.2)
      salary := salaryScore candidate.desired_salary job.salary_min job.salary_max
      location := locationScore candidate.preferred_locations candidate.open_to_remote
        job.location job.remote_allowed
      industry := industryScore candidate.industries job.industries }
  { job := job, score := round4 (breakdown.total weights), breakdown := breakdown }

/-- The sort key of `scored_jobs.sort(key=lambda match: match.score,
reverse=True)`: Python's stable sort with `reverse=True` orders by
descending score and keeps ties in input order; `mergeSort` with this
relation does the same. -/
def scoreDescLE (a b : ScoredMatch) : Bool :=
  decide (b.score ≤ a.score)

/-- The `JobMatch(job=..., score=..., breakdown=...)` construction in
`MatchingEngine.match_candidates_to_jobs` (`engine.py`). -/
def toJobMatch (m : ScoredMatch) : JobMatch :=
  { job := m.job, score := m.score, breakdown := m.breakdown }

/-- The per-candidate body of `MatchingEngine.match_candidates_to_jobs`
(`engine.py`): score all jobs, sort by score descending (stable), truncate
to `max 0 topN`. -/
def matchOneCandidate (candidate : CandidateProfile) (jobs : List JobPosting)
    (weights : MatchingWeights) (topN : ℤ) (currentYear : ℤ) : CandidateMatches :=
  let scoredJobs := jobs.map (fun job => scoreCandidateForJob candidate job weights currentYear)
  let sortedJobs := scoredJobs.mergeSort scoreDescLE
  { candidate := candidate,
    matchList := (sortedJobs.take (max 0 topN).toNat).map toJobMatch }

/-- `MatchingEngine.match_candidates_to_jobs` from `engine.py`. -/
def matchCandidatesToJobs (candidates : List CandidateProfile)
    (jobs : List JobPosting) (weights : MatchingWeights) (topN : ℤ)
    (currentYear : ℤ) : List CandidateMatches :=
  candidates.map (fun c => matchOneCandidate c jobs weights topN currentYear)

/-- The call with `top_n` left at its declared default of 3. -/
def matchCandidatesToJobsDefault (candidates : List CandidateProfile)
    (jobs : List JobPosting) (weights : MatchingWeights)
    (currentYear : ℤ) : List CandidateMatches :=
  matchCandidatesToJobs candidates jobs weights 3 currentYear

/-- The skill-score policy exactly as the specification words it (§4.3):
case 1, candidate has no skills but the job requires some; case 2, the job
requires nothing; case 3, required coverage plus a 0.3-weighted
nice-to-have bonus, capped at 1. -/
def skillScoreSpec (candidateSkills requiredSkills niceToHaveSkills : List String) : ℚ :=
  let c := normalizedSet candidateSkills
  let r := normalizedSet requiredSkills
  let n := normalizedSet niceToHaveSkills
  if c = ∅ ∧ r ≠ ∅ then 0
  else if r = ∅ then (if c = ∅ then 1/2 else 1)
  else
    let base : ℚ := ((c ∩ r).card : ℚ) / (r.card : ℚ)
    let bonus : ℚ := if n ≠ ∅ then ((c ∩ n).card : ℚ) / (n.card : ℚ) * (3/10) else 0
    min 1 (base + bonus)

/-- Sample candidate: ten years of raw experience and no role history. -/
def candTenYears : CandidateProfile :=
  { id := "c-ten", full_name := "Ten Years", years_experience := 10,
    skills := [], desired_salary := none, preferred_locations := [],
    open_to_remote := true, industries := [], roles := [],
    relevant_years := none, recent_relevant_years := none, seniority := none }

/-- Sample job requiring a minimum of ten years of experience. -/
def jobMinTen : JobPosting :=
  { id := "j-ten", title := "", company := none, required_skills := [],
    nice_to_have_skills := [], minimum_years_experience := 10,
    salary_min := none, salary_max := none, location := none,
    remote_allowed := true, industries := [] }

/-- Sample role: four calendar years (2020-2024), title sharing the token
"dev" with `jobDevMinFive`. -/
def roleDevFourYears : RoleExperience :=
  { title := "dev", duration_years := 4, description := none,
    start_year := some 2020, end_year := some 2024 }

/-- Sample candidate holding `roleDevFourYears`. -/
def candDevRole : CandidateProfile :=
  { id := "c-dev", full_name := "Dev Role", years_experience := 4,
    skills := [], desired_salary := none, preferred_locations := [],
    open_to_remote := true, industries := [], roles := [roleDevFourYears],
    relevant_years := none, recent_relevant_years := none, seniority := none }

/-- Sample job titled "dev" with a five-year experience minimum. -/
def jobDevMinFive : JobPosting :=
  { id := "j-dev", title := "dev", company := none, required_skills := [],
    nice_to_have_skills := [], minimum_years_experience := 5,
    salary_min := none, salary_max := none, location := none,
    remote_allowed := true, industries := [] }

/-- Sample role: an ongoing "dev" role started in 2021 whose recorded
duration is only half a year. -/
def roleDevHalfYear : RoleExperience :=
  { title := "dev", duration_years := 1/2, description := none,
    start_year := some 2021, end_year := none }

/-- Sample candidate holding `roleDevHalfYear`. -/
def candDevHalfYear : CandidateProfile :=
  { id := "c-half", full_name := "Half Year", years_experience := 1,
    skills := [], desired_salary := none, preferred_locations := [],
    open_to_remote := true, industries := [], roles := [roleDevHalfYear],
    relevant_years := none, recent_relevant_years := none, seniority := none }

theorem skillScore_nonneg (cs rs ns : List String) : 0 ≤ skillScore cs rs ns := by
  simp only [skillScore]
  split_ifs <;> try norm_num
  all_goals positivity

theorem skillScore_le_one (cs rs ns : List String) : skillScore cs rs ns ≤ 1 := by
  simp only [skillScore]
  split_ifs with h1 h2 h3 <;> norm_num

theorem experienceScoreAux_mem (m : ℕ) (b : ℚ) :
    0 ≤ experienceScoreAux m b ∧ experienceScoreAux m b ≤ 1 := by
  simp only [experienceScoreAux]
  split_ifs with h0 hge
  · norm_num
  · have hm1 : (0:ℚ) < ((max m 1 : ℕ) : ℚ) := by
      have h : (1:ℕ) ≤ max m 1 := le_max_right m 1
      exact_mod_cast Nat.lt_of_lt_of_le Nat.zero_lt_one h
    have hs : (0:ℚ) ≤ (b - (m:ℚ)) / ((max m 1 : ℕ) : ℚ) :=
      div_nonneg (by linarith) hm1.le
    have hminr : (0:ℚ) ≤ min ((b - (m:ℚ)) / ((max m 1 : ℕ) : ℚ)) 1 :=
      le_min hs (by norm_num)
    have hmul : (0:ℚ) ≤ min ((b - (m:ℚ)) / ((max m 1 : ℕ) : ℚ)) 1 * (3/10) :=
      mul_nonneg hminr (by norm_num)
    exact ⟨le_min (by norm_num) (by linarith), min_le_left _ _⟩
  · push_neg at hge
    have hm0 : (0:ℚ) < (m:ℚ) + 1 := by positivity
    have hp : (0:ℚ) ≤ ((m:ℚ) - b) / ((m:ℚ) + 1) := div_nonneg (by linarith) hm0.le
    exact ⟨le_max_left _ _, max_le (by norm_num) (by linarith)⟩

theorem experienceScore_mem (cy m : ℕ) (rel recent : Option ℚ) :
    0 ≤ experienceScore cy m rel recent ∧ experienceScore cy m rel recent ≤ 1 :=
  experienceScoreAux_mem m _

theorem salaryScore_mem (d smin smax : Option ℕ) :
    0 ≤ salaryScore d smin smax ∧ salaryScore d smin smax ≤ 1 := by
  unfold salaryScore
  cases d with
  | none => norm_num
  | some desired =>
    cases smin with
    | none =>
      cases smax with
      | none => norm_num
      | some mx =>
        simp only []
        refine ⟨le_max_left _ _, max_le (by norm_num) ?_⟩
        split_ifs with h
        · have hx : (0:ℚ) ≤ min 1 (((desired - mx : ℕ) : ℚ) / ((max mx 1 : ℕ) : ℚ)) :=
            le_min (by norm_num) (by positivity)
          linarith
        · norm_num
    | some mn =>
      have hmn : (0:ℚ) ≤ min (2/5) (((mn - desired : ℕ) : ℚ) / ((max mn 1 : ℕ) : ℚ) * (2/5)) :=
        le_min (by norm_num) (by positivity)
      cases smax with
      | none =>
        simp only []
        refine ⟨le_max_left _ _, max_le (by norm_num) ?_⟩
        split_ifs with h
        · linarith
        · norm_num
      | some mx =>
        simp only []
        refine ⟨le_max_left _ _, max_le (by norm_num) ?_⟩
        have hx : (0:ℚ) ≤ min 1 (((desired - mx : ℕ) : ℚ) / ((max mx 1 : ℕ) : ℚ)) :=
          le_min (by norm_num) (by positivity)
        split_ifs with h1 h2 h3 <;> linarith

theorem locationScore_mem (pl : List String) (otr : Bool) (jl : Option String) (jr : Bool) :
    0 ≤ locationScore pl otr jl jr ∧ locationScore pl otr jl jr ≤ 1 := by
  simp only [locationScore]
  split_ifs <;> norm_num

theorem industryScore_mem (ci ji : List String) :
    0 ≤ industryScore ci ji ∧ industryScore ci ji ≤ 1 := by
  simp only [industryScore]
  split_ifs with h1 h2 h3 <;> try norm_num
  have hj : (normalizedSet ji).Nonempty := Finset.nonempty_iff_ne_empty.mpr h3
  have hpos : (0:ℚ) < ((normalizedSet ji).card : ℚ) := by
    exact_mod_cast Finset.card_pos.mpr hj
  refine ⟨by positivity, ?_⟩
  rw [div_le_one hpos]
  exact_mod_cast Finset.card_le_card (Finset.inter_subset_right)

theorem total_mem (b : MatchBreakdown) (w : MatchingWeights) (hw : w.Valid)
    (hs0 : 0 ≤ b.skills) (hs1 : b.skills ≤ 1)
    (he0 : 0 ≤ b.experience) (he1 : b.experience ≤ 1)
    (ha0 : 0 ≤ b.salary) (ha1 : b.salary ≤ 1)
    (hl0 : 0 ≤ b.location) (hl1 : b.location ≤ 1)
    (hi0 : 0 ≤ b.industry) (hi1 : b.industry ≤ 1) :
    0 ≤ b.total w ∧ b.total w ≤ 1 := by
  obtain ⟨w1, w2, w3, w4, w5, wpos⟩ := hw
  unfold MatchBreakdown.total
  constructor
  · exact div_nonneg
      (by positivity)
      wpos.le
  · rw [div_le_one wpos]
    have k1 : b.skills * w.skills ≤ w.skills := mul_le_of_le_one_left w1 hs1
    have k2 : b.experience * w.experience ≤ w.experience := mul_le_of_le_one_left w2 he1
    have k3 : b.salary * w.salary ≤ w.salary := mul_le_of_le_one_left w3 ha1
    have k4 : b.location * w.location ≤ w.location := mul_le_of_le_one_left w4 hl1
    have k5 : b.industry * w.industry ≤ w.industry := mul_le_of_le_one_left w5 hi1
    unfold MatchingWeights.total_weight
    linarith

theorem round4_mem (x : ℚ) (h0 : 0 ≤ x) (h1 : x ≤ 1) :
    0 ≤ round4 x ∧ round4 x ≤ 1 := by
  unfold round4
  have hr := round_eq (x * 10000)
  constructor
  · refine div_nonneg ?_ (by norm_num)
    have h : (0:ℤ) ≤ round (x * 10000) := by
      rw [hr]; exact Int.floor_nonneg.mpr (by linarith)
    exact_mod_cast h
  · rw [div_le_one (by norm_num : (0:ℚ) < 10000)]
    have h : round (x * 10000) ≤ (10000:ℤ) := by
      rw [hr]; refine Int.floor_le_iff.mpr ?_; push_cast; linarith
    exact_mod_cast h

theorem round4_abs_sub_le (t : ℚ) : |round4 t - t| ≤ 1/20000 := by
  unfold round4
  have h : |((round (t * 10000) : ℤ) : ℚ) - t * 10000| ≤ 1/2 := by
    rw [abs_sub_comm]; exact abs_sub_round (t * 10000)
  have heq : ((round (t * 10000) : ℤ) : ℚ) / 10000 - t
      = (((round (t * 10000) : ℤ) : ℚ) - t * 10000) / 10000 := by ring
  rw [heq, abs_div, abs_of_pos (by norm_num : (0:ℚ) < 10000)]
  linarith

theorem defaultWeights_valid : MatchingWeights.Valid defaultWeights := by
  refine ⟨?_, ?_, ?_, ?_, ?_, ?_⟩ <;>
    norm_num [defaultWeights, MatchingWeights.total_weight]

/-- **C1.** For every candidate, job and valid `MatchingWeights`, each of the
five sub-scores (skills, experience, salary, location, industry) of the
candidate-job pair lies in `[0, 1]`, and the derived weighted total score
also lies in `[0, 1]`. -/
theorem c1_subscores_and_total_in_unit_interval
    (candidate : CandidateProfile) (job : JobPosting) (weights : MatchingWeights)
    (currentYear : ℤ) (hw : weights.Valid) :
    (0 ≤ (scoreCandidateForJob candidate job weights currentYear).breakdown.skills ∧
      (scoreCandidateForJob candidate job weights currentYear).breakdown.skills ≤ 1) ∧
    (0 ≤ (scoreCandidateForJob candidate job weights currentYear).breakdown.experience ∧
      (scoreCandidateForJob candidate job weights currentYear).breakdown.experience ≤ 1) ∧
    (0 ≤ (scoreCandidateForJob candidate job weights currentYear).breakdown.salary ∧
      (scoreCandidateForJob candidate job weights currentYear).breakdown.salary ≤ 1) ∧
    (0 ≤ (scoreCandidateForJob candidate job weights currentYear).breakdown.location ∧
      (scoreCandidateForJob candidate job weights currentYear).breakdown.location ≤ 1) ∧
    (0 ≤ (scoreCandidateForJob candidate job weights currentYear).breakdown.industry ∧
      (scoreCandidateForJob candidate job weights currentYear).breakdown.industry ≤ 1) ∧
    (0 ≤ (scoreCandidateForJob candidate job weights currentYear).score ∧
      (scoreCandidateForJob candidate job weights currentYear).score ≤ 1) := by
  have hsk0 := skillScore_nonneg candidate.skills job.required_skills job.nice_to_have_skills
  have hsk1 := skillScore_le_one candidate.skills job.required_skills job.nice_to_have_skills
  have hex := experienceScore_mem candidate.years_experience job.minimum_years_experience
    (some (computeRelevantYears candidate job currentYear).1)
    (some (computeRelevantYears candidate job currentYear).2)
  have hsa := salaryScore_mem candidate.desired_salary job.salary_min job.salary_max
  have hlo := locationScore_mem candidate.preferred_locations candidate.open_to_remote
    job.location job.remote_allowed
  have hin := industryScore_mem candidate.industries job.industries
  have htot := total_mem (scoreCandidateForJob candidate job weights currentYear).breakdown
    weights hw hsk0 hsk1 hex.1 hex.2 hsa.1 hsa.2 hlo.1 hlo.2 hin.1 hin.2
  exact ⟨⟨hsk0, hsk1⟩, hex, hsa, hlo, hin, round4_mem _ htot.1 htot.2⟩

/-- Witness for C1: the hypotheses hold at the default weights and concrete
inputs, and applying C1 there bounds the aggregate score. -/
theorem c1_subscores_and_total_in_unit_interval_witness :
    MatchingWeights.Valid defaultWeights ∧
    (0 ≤ (scoreCandidateForJob candTenYears jobMinTen defaultWeights 2025).score ∧
      (scoreCandidateForJob candTenYears jobMinTen defaultWeights 2025).score ≤ 1) :=
  ⟨defaultWeights_valid,
    (c1_subscores_and_total_in_unit_interval candTenYears jobMinTen defaultWeights 2025
      defaultWeights_valid).2.2.2.2.2⟩

/-- **C6.** The skill score follows exactly the case analysis of the spec:
0 when the candidate set is empty and the required set is not; 1 or 0.5
when the required set is empty, depending on whether the candidate set is
non-empty; otherwise required coverage plus a 0.3-capped nice-to-have
bonus, capped at 1. -/
theorem c6_skill_score_follows_spec_policy (cs rs ns : List String) :
    skillScore cs rs ns = skillScoreSpec cs rs ns := by
  simp only [skillScore, skillScoreSpec]
  split_ifs <;> simp_all

/-- **C7.** Enlarging the candidate's normalized skill set (holding the
job's required and nice-to-have skills fixed) never decreases the skill
score. -/
theorem c7_skill_score_monotone_in_candidate_skills
    (s s' req nice : List String)
    (hsub : normalizedSet s ⊆ normalizedSet s') :
    skillScore s req nice ≤ skillScore s' req nice := by
  by_cases hr : normalizedSet req = ∅
  · simp only [skillScore]
    have h1 : ¬ (normalizedSet s = ∅ ∧ normalizedSet req ≠ ∅) := by simp [hr]
    have h1' : ¬ (normalizedSet s' = ∅ ∧ normalizedSet req ≠ ∅) := by simp [hr]
    rw [if_neg h1, if_neg h1', if_pos hr, if_pos hr]
    split_ifs with ha ha' <;> try norm_num
    exact absurd (Finset.subset_empty.mp (not_not.mp ha' ▸ hsub)) ha
  · by_cases hs : normalizedSet s = ∅
    · have h0 : skillScore s req nice = 0 := by
        simp only [skillScore]; rw [if_pos ⟨hs, hr⟩]
      rw [h0]; exact skillScore_nonneg s' req nice
    · have hs' : normalizedSet s' ≠ ∅ := fun he =>
        hs (Finset.subset_empty.mp (he ▸ hsub))
      simp only [skillScore]
      rw [if_neg (show ¬ (normalizedSet s = ∅ ∧ normalizedSet req ≠ ∅) by tauto),
        if_neg hr,
        if_neg (show ¬ (normalizedSet s' = ∅ ∧ normalizedSet req ≠ ∅) by tauto),
        if_neg hr]
      have hrpos : (0:ℚ) < ((normalizedSet req).card : ℚ) := by
        exact_mod_cast Finset.card_pos.mpr (Finset.nonempty_iff_ne_empty.mpr hr)
      have hbase : ((normalizedSet s ∩ normalizedSet req).card : ℚ) / ((normalizedSet req).card : ℚ)
          ≤ ((normalizedSet s' ∩ normalizedSet req).card : ℚ) / ((normalizedSet req).card : ℚ) := by
        gcongr
      have hbonus : (if normalizedSet nice ≠ ∅ then
            ((normalizedSet s ∩ normalizedSet nice).card : ℚ) / ((normalizedSet nice).card : ℚ) * (3/10)
          else 0)
          ≤ (if normalizedSet nice ≠ ∅ then
            ((normalizedSet s' ∩ normalizedSet nice).card : ℚ) / ((normalizedSet nice).card : ℚ) * (3/10)
          else 0) := by
        split_ifs with hn
        · gcongr
        · exact le_refl 0
      exact min_le_min (le_refl 1) (add_le_add hbase hbonus)

/-- Witness for C7 at concrete skill lists where the inclusion is proper. -/
theorem c7_skill_score_monotone_in_candidate_skills_witness :
    normalizedSet ["a"] ⊆ normalizedSet ["a", "b"] ∧
    skillScore ["a"] ["b"] [] ≤ skillScore ["a", "b"] ["b"] [] :=
  ⟨by with_unfolding_all decide,
    c7_skill_score_monotone_in_candidate_skills ["a"] ["a", "b"] ["b"] []
      (by with_unfolding_all decide)⟩

/-- **C9.** The score attached to a match is the weighted aggregate rounded
to exactly four decimal places (a rational with denominator 10000 within
1/20000 of the exact aggregate), while the five sub-scores stored in the
breakdown are the raw, unrounded sub-scorer outputs. -/
theorem c9_total_rounded_subscores_unrounded
    (candidate : CandidateProfile) (job : JobPosting) (weights : MatchingWeights)
    (currentYear : ℤ) :
    ((scoreCandidateForJob candidate job weights currentYear).breakdown.skills
        = skillScore candidate.skills job.required_skills job.nice_to_have_skills ∧
      (scoreCandidateForJob candidate job weights currentYear).breakdown.experience
        = experienceScore candidate.years_experience job.minimum_years_experience
            (some (computeRelevantYears candidate job currentYear).1)
            (some (computeRelevantYears candidate job currentYear).2) ∧
      (scoreCandidateForJob candidate job weights currentYear).breakdown.salary
        = salaryScore candidate.desired_salary job.salary_min job.salary_max ∧
      (scoreCandidateForJob candidate job weights currentYear).breakdown.location
        = locationScore candidate.preferred_locations candidate.open_to_remote
            job.location job.remote_allowed ∧
      (scoreCandidateForJob candidate job weights currentYear).breakdown.industry
        = industryScore candidate.industries job.industries) ∧
    (∃ k : ℤ, (scoreCandidateForJob candidate job weights currentYear).score = (k : ℚ) / 10000) ∧
    |(scoreCandidateForJob candidate job weights currentYear).score -
        (scoreCandidateForJob candidate job weights currentYear).breakdown.total weights|
      ≤ 1/20000 := by
  refine ⟨⟨rfl, rfl, rfl, rfl, rfl⟩,
    ⟨round ((scoreCandidateForJob candidate job weights currentYear).breakdown.total weights
      * 10000), rfl⟩, ?_⟩
  exact round4_abs_sub_le _

/-- **C3 counterexample.** For the concrete candidate with ten raw years and
no role history, against a job requiring ten years, the engine's experience
sub-score (79/220) differs from what the claim prescribes: the
surplus/deficit rules applied with blended years equal to the raw
`years_experience` — which is exactly the engine's own `None`-relevance
fallback branch, worth 7/10 here.  The engine instead always feeds the
no-roles fallback `(years, min(years, 5))` of `_compute_relevant_years`
into the 0.75/0.25 blend. -/
theorem c3_counterexample_fallback_blend :
    (scoreCandidateForJob candTenYears jobMinTen defaultWeights 2025).breakdown.experience
      ≠ experienceScore candTenYears.years_experience jobMinTen.minimum_years_experience
          none none := by
  with_unfolding_all decide

/-- **C3 (amended).** For every candidate with empty role history and every
job, the experience score is the surplus/deficit rules applied with
`blended_years = 0.75 × min(years_experience, 5) + 0.25 × years_experience`;
this equals the claimed raw-`years_experience` fallback exactly when
`years_experience ≤ 5`. -/
theorem c3_amended_no_roles_blend
    (candidate : CandidateProfile) (job : JobPosting) (weights : MatchingWeights)
    (currentYear : ℤ) (hroles : candidate.roles = []) :
    ((scoreCandidateForJob candidate job weights currentYear).breakdown.experience
      = experienceScoreAux job.minimum_years_experience
          (3/4 * min (candidate.years_experience : ℚ) 5
            + 1/4 * (candidate.years_experience : ℚ))) ∧
    ((candidate.years_experience : ℚ) ≤ 5 →
      (scoreCandidateForJob candidate job weights currentYear).breakdown.experience
        = experienceScore candidate.years_experience job.minimum_years_experience
            none none) := by
  have hc : computeRelevantYears candidate job currentYear
      = ((candidate.years_experience : ℚ), min (candidate.years_experience : ℚ) 5) := by
    simp [computeRelevantYears, hroles]
  have h1 : (scoreCandidateForJob candidate job weights currentYear).breakdown.experience
      = experienceScoreAux job.minimum_years_experience
          (3/4 * min (candidate.years_experience : ℚ) 5
            + 1/4 * (candidate.years_experience : ℚ)) := by
    show experienceScore candidate.years_experience job.minimum_years_experience
        (some (computeRelevantYears candidate job currentYear).1)
        (some (computeRelevantYears candidate job currentYear).2) = _
    rw [hc]
    rfl
  refine ⟨h1, fun h5 => ?_⟩
  rw [h1, min_eq_left h5]
  show experienceScoreAux job.minimum_years_experience _
      = experienceScoreAux job.minimum_years_experience ((candidate.years_experience : ℚ))
  congr 1
  ring

/-- Witness for C3 (amended) at the concrete no-roles candidate. -/
theorem c3_amended_no_roles_blend_witness :
    candTenYears.roles = [] ∧
    (scoreCandidateForJob candTenYears jobMinTen defaultWeights 2025).breakdown.experience
      = experienceScoreAux jobMinTen.minimum_years_experience
          (3/4 * min ((candTenYears.years_experience : ℚ)) 5
            + 1/4 * (candTenYears.years_experience : ℚ)) :=
  ⟨rfl, (c3_amended_no_roles_blend candTenYears jobMinTen defaultWeights 2025 rfl).1⟩

/-- **C10.** For every role with a start year, its recent-years contribution
is `(min(end-or-now, now) − max(start, now − 5)) × relevance` when that
difference is non-negative (else 0), computed from calendar years only and
independently of `duration_years`; consequently recent relevant years are
not bounded by relevant years: the concrete ongoing half-year-duration role
contributes 4 recent years against 1/2 total relevant years. -/
theorem c10_recent_contribution_calendar_only :
    (∀ (role : RoleExperience) (relevance : ℚ) (currentYear sy : ℤ),
      role.start_year = some sy →
      (roleRecentContribution role relevance currentYear
          = (if max sy (currentYear - 5) ≤ min (effectiveEndYear role currentYear) currentYear
             then ((min (effectiveEndYear role currentYear) currentYear
                    - max sy (currentYear - 5) : ℤ) : ℚ) * relevance
             else 0)) ∧
      (∀ d : ℚ, roleRecentContribution { role with duration_years := d } relevance currentYear
          = roleRecentContribution role relevance currentYear)) ∧
    (computeRelevantYears candDevHalfYear jobDevMinFive 2025).1
      < (computeRelevantYears candDevHalfYear jobDevMinFive 2025).2 := by
  constructor
  · intro role relevance currentYear sy hsy
    constructor
    · simp [roleRecentContribution, hsy]
    · intro d
      simp [roleRecentContribution, effectiveEndYear, hsy]
  · with_unfolding_all decide

/-- Witness for C10 at the concrete ongoing role started in 2021. -/
theorem c10_recent_contribution_calendar_only_witness :
    roleDevHalfYear.start_year = some 2021 ∧
    roleRecentContribution roleDevHalfYear 1 2025
      = (if max 2021 (2025 - 5 : ℤ) ≤ min (effectiveEndYear roleDevHalfYear 2025) 2025
         then ((min (effectiveEndYear roleDevHalfYear 2025) 2025 - max 2021 (2025 - 5) : ℤ) : ℚ) * 1
         else 0) :=
  ⟨rfl, (c10_recent_contribution_calendar_only.1 roleDevHalfYear 1 2025 2021 rfl).1⟩

/-- **C2.** `CandidateProfile.roles` stores an arbitrary, possibly empty,
ordered sequence of `RoleExperience` records, and the engine's relevance
computation reads it: two candidates that differ only in `roles` (the
record update keeps every other field) yield different
`computeRelevantYears` results. -/
theorem c2_roles_field_read_by_relevance :
    (∀ (c : CandidateProfile) (rs : List RoleExperience),
      ({ c with roles := rs } : CandidateProfile).roles = rs) ∧
    ({ candDevHalfYear with roles := [] } : CandidateProfile).years_experience
      = candDevHalfYear.years_experience ∧
    computeRelevantYears { candDevHalfYear with roles := [] } jobDevMinFive 2025
      ≠ computeRelevantYears candDevHalfYear jobDevMinFive 2025 := by
  refine ⟨fun c rs => rfl, rfl, ?_⟩
  with_unfolding_all decide

set_option maxRecDepth 8000 in
/-- **C8 counterexample.** The match output is not a function of
(candidates, jobs, weights, top_n) alone: the very same inputs evaluated
when `datetime.now().year` reads 2024 and when it reads 2026 produce
different scores, because the 5-year recency window moves. -/
theorem c8_counterexample_clock_dependence :
    matchCandidatesToJobs [candDevRole] [jobDevMinFive] defaultWeights 3 2024
      ≠ matchCandidatesToJobs [candDevRole] [jobDevMinFive] defaultWeights 3 2026 := by
  with_unfolding_all decide

/-- **C8 (amended).** The match operation is purely functional over
(candidates, jobs, weights, top_n, evaluation-time calendar year): two
invocations with identical immutable inputs and the same current year
produce identical ordered output with bit-identical breakdowns and
scores. -/
theorem c8_amended_deterministic_given_year
    (c c' : List CandidateProfile) (j j' : List JobPosting)
    (w w' : MatchingWeights) (n n' y y' : ℤ)
    (hc : c = c') (hj : j = j') (hw : w = w') (hn : n = n') (hy : y = y') :
    matchCandidatesToJobs c j w n y = matchCandidatesToJobs c' j' w' n' y' := by
  subst hc; subst hj; subst hw; subst hn; subst hy; rfl

/-- Witness for C8 (amended) at concrete inputs. -/
theorem c8_amended_deterministic_given_year_witness :
    matchCandidatesToJobs [candDevRole] [jobDevMinFive] defaultWeights 3 2024
      = matchCandidatesToJobs [candDevRole] [jobDevMinFive] defaultWeights 3 2024 :=
  c8_amended_deterministic_given_year _ _ _ _ _ _ _ _ _ _ rfl rfl rfl rfl rfl

theorem scoreDescLE_trans (a b c : ScoredMatch)
    (hab : scoreDescLE a b = true) (hbc : scoreDescLE b c = true) :
    scoreDescLE a c = true := by
  simp only [scoreDescLE, decide_eq_true_eq] at hab hbc ⊢
  exact le_trans hbc hab

theorem scoreDescLE_total (a b : ScoredMatch) :
    (scoreDescLE a b || scoreDescLE b a) = true := by
  simp only [scoreDescLE, Bool.or_eq_true, decide_eq_true_eq]
  exact le_total b.score a.score

/-- **C5.** Each candidate's match list has length at most `max 0 top_n`
and at most the number of jobs supplied; a negative `top_n` yields an empty
match list rather than an error; and the default-`top_n` entry point calls
the engine with 3. -/
theorem c5_top_n_truncation
    (candidates : List CandidateProfile) (jobs : List JobPosting)
    (weights : MatchingWeights) (topN : ℤ) (currentYear : ℤ) :
    (∀ cm ∈ matchCandidatesToJobs candidates jobs weights topN currentYear,
      ((cm.matchList.length : ℤ) ≤ max 0 topN ∧
        cm.matchList.length ≤ jobs.length ∧
        (topN < 0 → cm.matchList = []))) ∧
    matchCandidatesToJobsDefault candidates jobs weights currentYear
      = matchCandidatesToJobs candidates jobs weights 3 currentYear := by
  refine ⟨?_, rfl⟩
  intro cm hm
  rw [matchCandidatesToJobs, List.mem_map] at hm
  obtain ⟨c, hc, rfl⟩ := hm
  have hlen : (matchOneCandidate c jobs weights topN currentYear).matchList.length
      = min (max 0 topN).toNat jobs.length := by
    simp [matchOneCandidate, List.length_take, List.length_mergeSort, List.length_map]
  refine ⟨?_, ?_, ?_⟩
  · rw [hlen]
    have h1 : min (max 0 topN).toNat jobs.length ≤ (max 0 topN).toNat := min_le_left _ _
    have h2 : (((max 0 topN).toNat : ℕ) : ℤ) = max 0 topN :=
      Int.toNat_of_nonneg (le_max_left 0 topN)
    calc ((min (max 0 topN).toNat jobs.length : ℕ) : ℤ)
        ≤ (((max 0 topN).toNat : ℕ) : ℤ) := by exact_mod_cast h1
      _ = max 0 topN := h2
  · rw [hlen]; exact min_le_right _ _
  · intro hneg
    have h0 : max 0 topN = 0 := max_eq_left hneg.le
    simp [matchOneCandidate, h0]

/-- Witness for C5 with a negative `top_n`: the single candidate gets an
empty match list. -/
theorem c5_top_n_truncation_witness :
    (⟨candTenYears, []⟩ : CandidateMatches)
        ∈ matchCandidatesToJobs [candTenYears] [jobMinTen] defaultWeights (-1) 2025 ∧
    (((⟨candTenYears, []⟩ : CandidateMatches).matchList.length : ℤ) ≤ max 0 (-1) ∧
      (⟨candTenYears, []⟩ : CandidateMatches).matchList.length ≤ [jobMinTen].length ∧
      ((-1 : ℤ) < 0 → (⟨candTenYears, []⟩ : CandidateMatches).matchList = [])) := by
  have hmem : (⟨candTenYears, []⟩ : CandidateMatches)
      ∈ matchCandidatesToJobs [candTenYears] [jobMinTen] defaultWeights (-1) 2025 := by
    with_unfolding_all decide
  exact ⟨hmem,
    (c5_top_n_truncation [candTenYears] [jobMinTen] defaultWeights (-1) 2025).1 _ hmem⟩

/-- **C4.** Each candidate's matches are ordered by total score
non-increasingly, and matches of equal score appear in the same relative
order as their jobs appeared in the input sequence: for every score value
`s`, the equal-`s` matches form an order-preserving subsequence of the
equal-`s` scored jobs taken in input order. -/
theorem c4_ranking_sorted_and_stable
    (candidates : List CandidateProfile) (jobs : List JobPosting)
    (weights : MatchingWeights) (topN : ℤ) (currentYear : ℤ) :
    ∀ cm ∈ matchCandidatesToJobs candidates jobs weights topN currentYear,
      cm.matchList.Pairwise (fun a b => b.score ≤ a.score) ∧
      ∀ s : ℚ,
        List.Sublist
          (cm.matchList.filter (fun m => decide (m.score = s)))
          (((jobs.map (fun job => scoreCandidateForJob cm.candidate job weights currentYear)).filter
                (fun m => decide (m.score = s))).map toJobMatch) := by
  intro cm hm
  rw [matchCandidatesToJobs, List.mem_map] at hm
  obtain ⟨c, hc, rfl⟩ := hm
  simp only [matchOneCandidate]
  have hsorted :
      ((jobs.map (fun job => scoreCandidateForJob c job weights currentYear)).mergeSort
        scoreDescLE).Pairwise (fun a b => scoreDescLE a b = true) :=
    List.sorted_mergeSort scoreDescLE_trans scoreDescLE_total _
  constructor
  · refine List.Pairwise.map toJobMatch (fun a b h => ?_)
      (List.Pairwise.sublist (List.take_sublist _ _) hsorted)
    exact of_decide_eq_true h
  · intro s
    have hfp :
        ((jobs.map (fun job => scoreCandidateForJob c job weights currentYear)).filter
          (fun m => decide (m.score = s))).Pairwise (fun a b => scoreDescLE a b = true) := by
      apply List.pairwise_of_forall_mem_list
      intro a ha b hb
      have hpa := List.of_mem_filter ha
      have hpb := List.of_mem_filter hb
      simp only [decide_eq_true_eq] at hpa hpb
      simp only [scoreDescLE, decide_eq_true_eq, hpa, hpb, le_refl]
    have hsub1 :
        List.Sublist
          ((jobs.map (fun job => scoreCandidateForJob c job weights currentYear)).filter
            (fun m => decide (m.score = s)))
          ((jobs.map (fun job => scoreCandidateForJob c job weights currentYear)).mergeSort
            scoreDescLE) :=
      List.sublist_mergeSort scoreDescLE_trans scoreDescLE_total hfp
        (List.filter_sublist _)
    have hlen :
        (((jobs.map (fun job => scoreCandidateForJob c job weights currentYear)).mergeSort
            scoreDescLE).filter (fun m => decide (m.score = s))).length
          = ((jobs.map (fun job => scoreCandidateForJob c job weights currentYear)).filter
              (fun m => decide (m.score = s))).length :=
      ((List.mergeSort_perm _ scoreDescLE).filter _).length_eq
    have hexact :=
      hsub1.filter (fun m => decide (m.score = s))
    rw [List.filter_filter] at hexact
    have hfe :
        (jobs.map (fun job => scoreCandidateForJob c job weights currentYear)).filter
            (fun a => decide (a.score = s) && decide (a.score = s))
          = (jobs.map (fun job => scoreCandidateForJob c job weights currentYear)).filter
              (fun m => decide (m.score = s)) := by
      simp only [Bool.and_self]
    rw [hfe] at hexact
    have heq :
        (jobs.map (fun job => scoreCandidateForJob c job weights currentYear)).filter
            (fun m => decide (m.score = s))
          = ((jobs.map (fun job => scoreCandidateForJob c job weights currentYear)).mergeSort
              scoreDescLE).filter (fun m => decide (m.score = s)) :=
      hexact.eq_of_length hlen.symm
    rw [List.filter_map]
    show List.Sublist
        (((((jobs.map (fun job => scoreCandidateForJob c job weights currentYear)).mergeSort
          scoreDescLE).take (max 0 topN).toNat).filter
            (fun m => decide (m.score = s))).map toJobMatch) _
    apply List.Sublist.map
    rw [heq]
    exact (List.take_sublist _ _).filter _

/-- Witness for C4 at a concrete candidate and job list. -/
theorem c4_ranking_sorted_and_stable_witness :
    (⟨candTenYears, [toJobMatch (scoreCandidateForJob candTenYears jobMinTen defaultWeights 2025)]⟩
        : CandidateMatches)
      ∈ matchCandidatesToJobs [candTenYears] [jobMinTen] defaultWeights 3 2025 ∧
    ([toJobMatch (scoreCandidateForJob candTenYears jobMinTen defaultWeights 2025)].Pairwise
      (fun a b => b.score ≤ a.score)) := by
  have hmem : (⟨candTenYears,
      [toJobMatch (scoreCandidateForJob candTenYears jobMinTen defaultWeights 2025)]⟩
        : CandidateMatches)
      ∈ matchCandidatesToJobs [candTenYears] [jobMinTen] defaultWeights 3 2025 := by
    rw [matchCandidatesToJobs]
    simp only [List.map, matchOneCandidate, List.mergeSort_singleton]
    left
  exact ⟨hmem,
    ((c4_ranking_sorted_and_stable [candTenYears] [jobMinTen] defaultWeights 3 2025) _ hmem).1⟩

end Hirex
